import Mathlib

/-!
# rtslam: observation makers and raw-image detection

A shallow embedding of

* `src/include/rtslam/observationMakers.hpp` (`ImagePointObservationMaker`), and
* `src/src/rawImage.cpp` (`RawImage`),

followed by the properties established about them.

Conventions of the embedding.

* A `boost::shared_ptr<T>` is an `Option` of the object it points to; `none` is
  the null pointer.  Sensors and landmarks are only passed around, so their
  pointers are object identities (`Nat`).
* A C++ `double` that is only stored, forwarded and compared with zero is a
  rational number.
* A class whose declaration is outside the two source files is the record of
  the constructor arguments (and later method calls) the source gives it.
-/

namespace jafar
namespace rtslam

/-! ## Collaborating types -/

/-- Values of C++ `double`; the sources only store, forward and compare them. -/
abbrev Double := ℚ

/-- Pose vector `jblas::vec7`: seven doubles. -/
abbrev vec7 := Fin 7 → Double

/-- Object identity of the sensor behind a `sensor_ptr_t`. -/
abbrev sensor_ptr_t := Nat

/-- Object identity of the landmark behind a `landmark_ptr_t`. -/
abbrev landmark_ptr_t := Nat

/-- Enumerators of `SensorAbstract::type_enum` and `LandmarkAbstract::type_enum`,
by their integer value. -/
abbrev type_enum := Nat

/-- OpenCV depth code `CV_8U` (8-bit unsigned), whose value is 0. -/
def CV_8U : Int := 0

/-- Object built by `new FeatureImagePoint(width, height, depth)`: the dimensions
and pixel depth requested for its appearance patch. -/
structure FeatureImagePoint where
  width : Int
  height : Int
  depth : Int
  deriving DecidableEq, Repr

/-- Modelled from the spec: `FeaturePoint` is declared in
`rtslam/featurePoint.hpp`, which is not among the sources.  The spec describes
it as a detected 2D location; `measurement = none` is the object as
`new FeaturePoint` leaves it, before a detector has written a location. -/
structure FeaturePoint where
  measurement : Option (Double × Double)
  deriving DecidableEq, Repr

/-- The feature classes that the sources instantiate behind a `feature_ptr_t`. -/
inductive FeatureAbstract where
  | featurePoint (f : FeaturePoint)
  | featureImagePoint (f : FeatureImagePoint)
  deriving DecidableEq, Repr

/-- Shared pointer to a feature; `none` is the null pointer. -/
abbrev feature_ptr_t := Option FeatureAbstract

/-- Shared pointer typed `FeatureImagePoint`; the pointee is kept as it is. -/
abbrev feat_img_pnt_ptr_t := Option FeatureAbstract

/-- Modelled from the spec: the macro `SPTR_CAST` is defined outside the
sources.  The spec has the descriptor keep the feature it is given, so the cast
hands back the pointer it receives, retyped, as a boost pointer cast does for a
pointee of the target class. -/
def SPTR_CAST (p : feature_ptr_t) : feat_img_pnt_ptr_t := p

/-- Object of the template parameter `ObsType`: the sensor and landmark given
to its constructor and the argument triples of the `setup` calls it received,
oldest first. -/
structure Observation where
  sensorPtr : sensor_ptr_t
  landmarkPtr : landmark_ptr_t
  setupCalls : List (Int × Double × Double)
  deriving DecidableEq, Repr

/-- The constructor call `ObsType(senPtr, lmkPtr)`. -/
def Observation.new (senPtr : sensor_ptr_t) (lmkPtr : landmark_ptr_t) : Observation :=
  { sensorPtr := senPtr, landmarkPtr := lmkPtr, setupCalls := [] }

/-- The method call `setup(patchSize, dmin, reparamTh)`. -/
def Observation.setup (o : Observation) (patchSize : Int) (dmin reparamTh : Double) :
    Observation :=
  { o with setupCalls := o.setupCalls ++ [(patchSize, dmin, reparamTh)] }

/-- Shared pointer to an observation; `none` is the null pointer. -/
abbrev observation_ptr_t := Option Observation

/-- Object built by `new DescriptorImagePoint(featSpecPtr, senPoseInit, obsInitPtr)`:
the three constructor arguments. -/
structure DescriptorImagePoint where
  featPtr : feat_img_pnt_ptr_t
  senPoseInit : vec7
  obsInitPtr : observation_ptr_t

/-- Shared pointer to a descriptor; `none` is the null pointer. -/
abbrev descriptor_ptr_t := Option DescriptorImagePoint

/-! ## `ImagePointObservationMaker` -/

/-- The maker: the two type tags handed to `ObservationMakerAbstract` and the
three private members. -/
structure ImagePointObservationMaker where
  senTypeId : type_enum
  lmkTypeId : type_enum
  patchSize : Int
  dmin : Double
  reparamTh : Double
  deriving DecidableEq, Repr

namespace ImagePointObservationMaker

/-- The constructor.  `SenTypeId` and `LmkTypeId` are the template arguments;
an omitted `_dmin` or `reparam_th` (`none`) takes its default `0.0`. -/
def new (SenTypeId LmkTypeId : type_enum) (_patchSize : Int)
    (_dmin : Option Double) (reparam_th : Option Double) : ImagePointObservationMaker :=
  { senTypeId := SenTypeId, lmkTypeId := LmkTypeId, patchSize := _patchSize,
    dmin := _dmin.getD 0, reparamTh := reparam_th.getD 0 }

/-- The method `create`: builds the observation on the two pointers and sets it up. -/
def create (m : ImagePointObservationMaker) (senPtr : sensor_ptr_t)
    (lmkPtr : landmark_ptr_t) : observation_ptr_t :=
  let res := Observation.new senPtr lmkPtr
  let res := res.setup m.patchSize m.dmin m.reparamTh
  some res

/-- The method `createFeat`. -/
def createFeat (m : ImagePointObservationMaker) (_senPtr : sensor_ptr_t)
    (_lmkPtr : landmark_ptr_t) : feature_ptr_t :=
  let res := FeatureAbstract.featureImagePoint
    { width := m.patchSize, height := m.patchSize, depth := CV_8U }
  some res

/-- The method `createDesc`. -/
def createDesc (_m : ImagePointObservationMaker) (_senPtr : sensor_ptr_t)
    (_lmkPtr : landmark_ptr_t) (featPtr : feature_ptr_t) (senPoseInit : vec7)
    (obsInitPtr : observation_ptr_t) : descriptor_ptr_t :=
  let featSpecPtr := SPTR_CAST featPtr
  let res : DescriptorImagePoint :=
    { featPtr := featSpecPtr, senPoseInit := senPoseInit, obsInitPtr := obsInitPtr }
  some res

end ImagePointObservationMaker

/-- One call of a maker method together with its arguments. -/
inductive MakerCall where
  | create (senPtr : sensor_ptr_t) (lmkPtr : landmark_ptr_t)
  | createFeat (senPtr : sensor_ptr_t) (lmkPtr : landmark_ptr_t)
  | createDesc (senPtr : sensor_ptr_t) (lmkPtr : landmark_ptr_t) (featPtr : feature_ptr_t)
      (senPoseInit : vec7) (obsInitPtr : observation_ptr_t)

/-- What a maker method hands back. -/
inductive MakerReturn where
  | observation (p : observation_ptr_t)
  | feature (p : feature_ptr_t)
  | descriptor (p : descriptor_ptr_t)

namespace ImagePointObservationMaker

/-- One method call on the maker object: the value returned and the object
afterwards.  None of the three method bodies assigns a member, so the object
afterwards has the members it had. -/
def call (m : ImagePointObservationMaker) : MakerCall → MakerReturn × ImagePointObservationMaker
  | .create senPtr lmkPtr => (.observation (m.create senPtr lmkPtr), m)
  | .createFeat senPtr lmkPtr => (.feature (m.createFeat senPtr lmkPtr), m)
  | .createDesc senPtr lmkPtr featPtr senPoseInit obsInitPtr =>
      (.descriptor (m.createDesc senPtr lmkPtr featPtr senPoseInit obsInitPtr), m)

/-- A finite sequence of method calls, oldest first: the object after the last
one. -/
def run (m : ImagePointObservationMaker) : List MakerCall → ImagePointObservationMaker
  | [] => m
  | c :: cs => run (m.call c).2 cs

/-- Modelled from the spec: validity of a `MakerConfig`, which the sources do
not define: `patchSize` positive and odd, `dmin` non-negative, `reparamTh`
strictly positive. -/
def validConfig (m : ImagePointObservationMaker) : Prop :=
  0 < m.patchSize ∧ m.patchSize % 2 = 1 ∧ 0 ≤ m.dmin ∧ 0 < m.reparamTh

instance (m : ImagePointObservationMaker) : Decidable m.validConfig :=
  inferInstanceAs (Decidable (_ ∧ _ ∧ _ ∧ _))

end ImagePointObservationMaker

/-- Width and height of the appearance patch behind a feature pointer, when the
pointee is a `FeatureImagePoint`. -/
def patchDims : feature_ptr_t → Option (Int × Int)
  | some (.featureImagePoint f) => some (f.width, f.height)
  | _ => none

/-- Image location behind a feature pointer, when the pointee is a located
`FeaturePoint`. -/
def location : feature_ptr_t → Option (Double × Double)
  | some (.featurePoint f) => f.measurement
  | _ => none

/-! ## `RawImage` -/

/-- A `jafar::image::Image`; the sources only hand it to the detector. -/
structure Image where
  width : Nat
  height : Nat
  data : List Nat
  deriving DecidableEq, Repr

/-- Shared pointer to an image; `none` is the null pointer. -/
abbrev jafarImage_ptr_t := Option Image

/-- A `jafar::image::ROI`; the sources only hand it to the detector. -/
structure ROI where
  x : Int
  y : Int
  width : Int
  height : Int
  deriving DecidableEq, Repr

/-- The member `quickHarrisDetector`: the two arguments its constructor was
given. -/
structure QuickHarrisDetector where
  arg0 : Int
  arg1 : Double
  deriving DecidableEq, Repr

/-- What one call of `detectIn` leaves behind: its boolean result, the feature
point it was handed, as written by it, and the detector object afterwards. -/
structure DetectInResult where
  found : Bool
  feat : FeaturePoint
  det : QuickHarrisDetector
  deriving DecidableEq, Repr

/-- Type of `QuickHarrisDetector::detectIn(image, featPntPtr, roiPtr)`, whose body
is outside the sources: it is a parameter of `RawImage.detect`.  A null `roiPtr`
is `none`. -/
abbrev DetectIn := QuickHarrisDetector → Image → FeaturePoint → Option ROI → DetectInResult

/-- The enumeration `detect_method`: `HARRIS` and any other tag. -/
inductive detect_method where
  | HARRIS
  | other (tag : Nat)
  deriving DecidableEq, Repr

/-- Identifiers of `RtslamException` used by the sources. -/
inductive ExceptionId where
  | UNKNOWN_DETECTION_METHOD
  deriving DecidableEq, Repr

/-- A thrown `RtslamException`. -/
structure RtslamException where
  id : ExceptionId
  message : String
  deriving DecidableEq, Repr

/-- How a call ends: a returned boolean, a thrown exception, or undefined
behaviour (dereferencing a null pointer). -/
inductive Outcome where
  | returned (b : Bool)
  | thrown (e : RtslamException)
  | undefined
  deriving DecidableEq, Repr

/-- Modelled from the spec: the macro `JFR_ERROR` is defined outside the
sources; by the spec the unsupported-method path raises a fatal error, so the
macro ends the call by throwing the exception it names. -/
def JFR_ERROR (id : ExceptionId) (message : String) : Outcome :=
  .thrown { id := id, message := message }

/-- The object `RawImage`: its two members. -/
structure RawImage where
  img : jafarImage_ptr_t
  quickHarrisDetector : QuickHarrisDetector
  deriving DecidableEq, Repr

/-- A finished call of `detect`: how it ended, the caller's `featPtr` (passed by
reference) afterwards, and the object afterwards. -/
structure DetectResult where
  outcome : Outcome
  featPtr : feature_ptr_t
  self : RawImage
  deriving DecidableEq, Repr

namespace RawImage

/-- The constructor `RawImage()`: a null image and a detector built with
`(5, 10.0)`. -/
def new : RawImage :=
  { img := none, quickHarrisDetector := { arg0 := 5, arg1 := 10 } }

/-- The method `setJafarImage`. -/
def setJafarImage (self : RawImage) (img_ : jafarImage_ptr_t) : RawImage :=
  { self with img := img_ }

/-- The method `detect`.  `featPtr` is the value of the caller's reference
parameter on entry. -/
def detect (detectIn : DetectIn) (self : RawImage) (met : detect_method)
    (featPtr : feature_ptr_t) (roiPtr : Option ROI) : DetectResult :=
  match met with
  | .HARRIS =>
    let featPntPtr : FeaturePoint := { measurement := none }
    match self.img with
    | none => { outcome := .undefined, featPtr := featPtr, self := self }
    | some img =>
      let r := detectIn self.quickHarrisDetector img featPntPtr roiPtr
      let self1 := { self with quickHarrisDetector := r.det }
      if r.found then
        { outcome := .returned true, featPtr := some (.featurePoint r.feat), self := self1 }
      else
        { outcome := .returned false, featPtr := featPtr, self := self1 }
  | _ =>
    { outcome := JFR_ERROR .UNKNOWN_DETECTION_METHOD
        "Unrecognized or inexistent feature detection method.",
      featPtr := featPtr, self := self }

/-- The detection contract in the words of the specification, for the corner
detector: search the stored image, within the region when one is supplied and
the full image otherwise; the answer is the feature found, or `none` for
`NotFound`. -/
def detectSpec (detectIn : DetectIn) (self : RawImage) (img : Image) (roi : Option ROI) :
    Option FeaturePoint :=
  let r := detectIn self.quickHarrisDetector img { measurement := none } roi
  if r.found then some r.feat else none

end RawImage

/-- Squared image-space distance between two pixels. -/
def distSq (a b : Double × Double) : Double :=
  (a.1 - b.1) ^ 2 + (a.2 - b.2) ^ 2

/-- Modelled from the spec: the proximity test of the detection contract, which
the sources do not contain: the image-space distance from candidate `p` to the
landmark projection `lmk` is strictly less than `dmin`. -/
def tooClose (dmin : Double) (p lmk : Double × Double) : Prop :=
  0 < dmin ∧ distSq p lmk < dmin ^ 2

instance (dmin : Double) (p lmk : Double × Double) : Decidable (tooClose dmin p lmk) :=
  inferInstanceAs (Decidable (_ ∧ _))

/-- A detector that reports a corner at pixel (103, 104) whatever it is given. -/
def cornerAt103_104 : DetectIn :=
  fun det _ _ _ => { found := true, feat := { measurement := some (103, 104) }, det := det }

/-- A detector that finds nothing and leaves the feature point as it is. -/
def noCorner : DetectIn :=
  fun det _ fp _ => { found := false, feat := fp, det := det }

/-- A blank 4 x 4 image. -/
def blankImage : Image := { width := 4, height := 4, data := List.replicate 16 0 }

/-- Image-plane position of an integer pixel. -/
def pixel (p : Int × Int) : Double × Double := ((p.1 : Double), (p.2 : Double))

/-- Pixels of the axis-aligned rectangle with corner `(x, y)`, `w` columns and
`h` rows, row by row. -/
def rectPixels (x y w h : Int) : List (Int × Int) :=
  (List.range h.toNat).flatMap fun j => (List.range w.toNat).map fun i => (x + i, y + j)

/-- Whether a pixel lies inside the image. -/
def inImage (img : Image) (p : Int × Int) : Bool :=
  decide (0 ≤ p.1 ∧ p.1 < img.width ∧ 0 ≤ p.2 ∧ p.2 < img.height)

/-- Modelled from the spec: the region a detection searches, which is decided by
`QuickHarrisDetector::detectIn`, outside the sources: the search is confined to
the region of interest when one is supplied, else it is the full image. -/
def searchRegion (img : Image) : Option ROI → List (Int × Int)
  | none => rectPixels 0 0 img.width img.height
  | some roi => (rectPixels roi.x roi.y roi.width roi.height).filter (inImage img)

/-- The highest-scoring pixel of a list, the earliest one among equals; `none`
for the empty list. -/
def strongest (score : Int × Int → Double) : List (Int × Int) → Option (Int × Int)
  | [] => none
  | p :: ps =>
    match strongest score ps with
    | none => some p
    | some q => if score p < score q then some q else some p

/-- Modelled from the spec: `QuickHarrisDetector::detectIn`, whose body is
outside the sources.  Within the searched region it scores candidate points by
a strength metric (`score`, left open by the spec) against a fixed quality
threshold and returns the highest-scoring point above the threshold, written
into the feature point handed in, or reports that none qualifies. -/
def harrisSpec (score : Image → Int × Int → Double) (threshold : Double) : DetectIn :=
  fun det img featPnt roi =>
    match strongest (score img)
        ((searchRegion img roi).filter fun p => decide (threshold < score img p)) with
    | none => { found := false, feat := featPnt, det := det }
    | some p => { found := true, feat := { measurement := some (pixel p) }, det := det }

/-- Modelled from the spec: how the caller of `detect`, outside the sources,
marks landmarks as already present: it pre-shrinks the region it passes so that
the region excludes the neighbourhood of every such landmark, that is, no pixel
of the searched region is closer than `dmin` to the predicted projection of a
marked landmark. -/
def marksPresent (dmin : Double) (lmks : List (Double × Double)) (img : Image)
    (roi : Option ROI) : Prop :=
  ∀ p ∈ searchRegion img roi, ∀ l ∈ lmks, ¬ tooClose dmin (pixel p) l

/-- A 200 x 200 image. -/
def frame200 : Image := { width := 200, height := 200, data := List.replicate 40000 0 }

/-- A strength map with a corner of strength 90 at (103, 104), a corner of
strength 50 at (130, 100) and nothing elsewhere. -/
def twoCorners : Image → Int × Int → Double :=
  fun _ p => if p = (103, 104) then 90 else if p = (130, 100) then 50 else 0

/-- The one-row region of the pixels (120, 100) to (130, 100). -/
def shrunkROI : ROI := { x := 120, y := 100, width := 11, height := 1 }

/-! ## Properties of `ImagePointObservationMaker` -/

/-- C1: a maker constructed with patch size `p` (any tags, `dmin`, `reparamTh`)
answers `createFeat` with a fresh `FeatureImagePoint` whose patch is requested
`p` wide, `p` high and of depth `CV_8U`, whatever sensor and landmark are passed. -/
theorem createFeat_patch (S L : type_enum) (p : Int) (d r : Option Double)
    (senPtr : sensor_ptr_t) (lmkPtr : landmark_ptr_t) :
    (ImagePointObservationMaker.new S L p d r).createFeat senPtr lmkPtr
        = some (.featureImagePoint { width := p, height := p, depth := CV_8U })
      ∧ patchDims ((ImagePointObservationMaker.new S L p d r).createFeat senPtr lmkPtr)
        = some (p, p) :=
  ⟨rfl, rfl⟩

/-- C2: `createDesc` returns a descriptor that holds the sensor pose `q` exactly
as passed, the feature `f` and the initial observation `o`, for every maker,
sensor and landmark. -/
theorem createDesc_stores (m : ImagePointObservationMaker) (senPtr : sensor_ptr_t)
    (lmkPtr : landmark_ptr_t) (f : feature_ptr_t) (q : vec7) (o : observation_ptr_t) :
    ∃ d, m.createDesc senPtr lmkPtr f q o = some d
      ∧ d.senPoseInit = q ∧ d.featPtr = f ∧ d.obsInitPtr = o :=
  ⟨_, rfl, rfl, rfl, rfl⟩

/-- C3: `create` on a maker constructed with `(p, d, r)` returns an observation
built on exactly the sensor and landmark passed, which received exactly one
`setup` call, with the arguments `(p, d, r)` in that order. -/
theorem create_setup (S L : type_enum) (p : Int) (d r : Double)
    (senPtr : sensor_ptr_t) (lmkPtr : landmark_ptr_t) :
    (ImagePointObservationMaker.new S L p (some d) (some r)).create senPtr lmkPtr
      = some { sensorPtr := senPtr, landmarkPtr := lmkPtr, setupCalls := [(p, d, r)] } :=
  rfl

/-- C8, as the claim states it, fails: a maker of patch size 11 given a 7 x 7
feature returns, without any failure, a descriptor whose stored feature is that
7 x 7 feature. -/
theorem createDesc_accepts_other_patch_size :
    ∃ d, (ImagePointObservationMaker.new 0 0 11 (some 20) (some (1 / 10))).createDesc 0 0
          ((ImagePointObservationMaker.new 0 0 7 none none).createFeat 0 0)
          (fun _ => 0) none = some d
      ∧ patchDims d.featPtr = some (7, 7)
      ∧ patchDims d.featPtr ≠
          some ((ImagePointObservationMaker.new 0 0 11 (some 20) (some (1 / 10))).patchSize,
                (ImagePointObservationMaker.new 0 0 11 (some 20) (some (1 / 10))).patchSize) :=
  ⟨_, rfl, rfl, by decide⟩

/-- C8, amended: `createDesc` does not compare the feature with the maker's patch
size and never fails: the descriptor holds the feature it was given, so its patch
has the dimensions of that feature; it is `p` x `p` when the feature comes from
`createFeat` of a maker whose patch size is `p`. -/
theorem createDesc_patch_follows_feature (m : ImagePointObservationMaker)
    (senPtr senPtr1 : sensor_ptr_t) (lmkPtr lmkPtr1 : landmark_ptr_t) (f : feature_ptr_t)
    (q : vec7) (o : observation_ptr_t) :
    (∃ d, m.createDesc senPtr lmkPtr f q o = some d ∧ patchDims d.featPtr = patchDims f)
      ∧ (∃ d, m.createDesc senPtr lmkPtr (m.createFeat senPtr1 lmkPtr1) q o = some d
          ∧ patchDims d.featPtr = some (m.patchSize, m.patchSize)) :=
  ⟨⟨_, rfl, rfl⟩, ⟨_, rfl, rfl⟩⟩

/-- C9, as the claim states it, fails: the maker constructed with patch size 11
and both optional arguments omitted has `reparamTh = 0`, which is not strictly
positive, so its configuration is not valid. -/
theorem default_config_not_valid :
    (ImagePointObservationMaker.new 0 0 11 none none).reparamTh = 0
      ∧ ¬ (ImagePointObservationMaker.new 0 0 11 none none).validConfig := by
  refine ⟨rfl, ?_⟩
  simp [ImagePointObservationMaker.validConfig, ImagePointObservationMaker.new]

/-- C9, amended: the constructor stores its arguments as they are, with `0.0`
for an omitted `dmin` or `reparamTh`, and validates nothing: the configuration is
valid exactly when the patch size passed is positive and odd, the `dmin` in
effect non-negative and the `reparamTh` in effect strictly positive; an omitted
`dmin` is non-negative. -/
theorem new_config (S L : type_enum) (p : Int) (d r : Option Double) :
    (ImagePointObservationMaker.new S L p d r).patchSize = p
      ∧ (ImagePointObservationMaker.new S L p d r).dmin = d.getD 0
      ∧ (ImagePointObservationMaker.new S L p d r).reparamTh = r.getD 0
      ∧ ((ImagePointObservationMaker.new S L p d r).validConfig
          ↔ (0 < p ∧ p % 2 = 1 ∧ 0 ≤ d.getD 0 ∧ 0 < r.getD 0))
      ∧ 0 ≤ (ImagePointObservationMaker.new S L p none r).dmin :=
  ⟨rfl, rfl, rfl, Iff.rfl, le_refl _⟩

/-- The maker object is the same after any sequence of method calls. -/
theorem run_eq (cs : List MakerCall) (m : ImagePointObservationMaker) : m.run cs = m := by
  induction cs generalizing m with
  | nil => rfl
  | cons c cs ih =>
    have h : (m.call c).2 = m := by cases c <;> rfl
    simp [ImagePointObservationMaker.run, h, ih]

/-- C10: after any finite sequence of `create`, `createFeat` and `createDesc`
calls the maker has the patch size, `dmin`, `reparamTh` and type tags it was
constructed with, and a call made after one sequence returns what the same call
with the same arguments returns after any other sequence. -/
theorem maker_frame (S L : type_enum) (p : Int) (d r : Option Double)
    (cs cs1 : List MakerCall) (c : MakerCall) :
    (ImagePointObservationMaker.new S L p d r).run cs = ImagePointObservationMaker.new S L p d r
      ∧ ((ImagePointObservationMaker.new S L p d r).run cs).patchSize = p
      ∧ ((ImagePointObservationMaker.new S L p d r).run cs).dmin = d.getD 0
      ∧ ((ImagePointObservationMaker.new S L p d r).run cs).reparamTh = r.getD 0
      ∧ ((ImagePointObservationMaker.new S L p d r).run cs).senTypeId = S
      ∧ ((ImagePointObservationMaker.new S L p d r).run cs).lmkTypeId = L
      ∧ (((ImagePointObservationMaker.new S L p d r).run cs).call c).1
          = (((ImagePointObservationMaker.new S L p d r).run cs1).call c).1 := by
  rw [run_eq cs, run_eq cs1]
  exact ⟨rfl, rfl, rfl, rfl, rfl, rfl, rfl⟩

/-! ## Properties of `RawImage.detect` -/

/-- C4: for a method tag other than `HARRIS`, `detect` ends by throwing
`UNKNOWN_DETECTION_METHOD`, whatever the image, region, detector and prior
feature: no boolean is returned, the detector member is as before (it was not
run) and the caller's feature is as before.  With an image stored, every call of
`detect` ends by returning true, returning false, or throwing. -/
theorem detect_unknown_method (detectIn : DetectIn) (self : RawImage) (met : detect_method)
    (featPtr : feature_ptr_t) (roiPtr : Option ROI) (hmet : met ≠ .HARRIS) :
    RawImage.detect detectIn self met featPtr roiPtr
        = { outcome := .thrown { id := .UNKNOWN_DETECTION_METHOD,
                                 message := "Unrecognized or inexistent feature detection method." },
            featPtr := featPtr, self := self }
      ∧ (∀ b, (RawImage.detect detectIn self met featPtr roiPtr).outcome ≠ .returned b)
      ∧ (∀ (met1 : detect_method) (img : Image) (f : feature_ptr_t) (roi : Option ROI),
          (RawImage.detect detectIn (self.setJafarImage (some img)) met1 f roi).outcome
              = .returned true
            ∨ (RawImage.detect detectIn (self.setJafarImage (some img)) met1 f roi).outcome
              = .returned false
            ∨ ∃ e, (RawImage.detect detectIn (self.setJafarImage (some img)) met1 f roi).outcome
              = .thrown e) := by
  have h : RawImage.detect detectIn self met featPtr roiPtr
        = { outcome := .thrown { id := .UNKNOWN_DETECTION_METHOD,
                                 message := "Unrecognized or inexistent feature detection method." },
            featPtr := featPtr, self := self } := by
    cases met with
    | HARRIS => exact absurd rfl hmet
    | other tag => rfl
  refine ⟨h, ?_, ?_⟩
  · intro b hb
    rw [h] at hb
    cases hb
  · intro met1 img f roi
    cases met1 with
    | HARRIS =>
      simp only [RawImage.detect, RawImage.setJafarImage]
      split
      · exact Or.inl rfl
      · exact Or.inr (Or.inl rfl)
    | other tag => exact Or.inr (Or.inr ⟨_, rfl⟩)

/-- Witness of C4 on a freshly constructed `RawImage` and method tag 1. -/
theorem detect_unknown_method_witness :
    detect_method.other 1 ≠ .HARRIS
      ∧ RawImage.detect cornerAt103_104 RawImage.new (.other 1) none none
        = { outcome := .thrown { id := .UNKNOWN_DETECTION_METHOD,
                                 message := "Unrecognized or inexistent feature detection method." },
            featPtr := none, self := RawImage.new } :=
  ⟨by decide, (detect_unknown_method cornerAt103_104 RawImage.new (.other 1) none none
    (by decide)).1⟩

/-- C5: when the Harris detector finds nothing in the stored image and region,
`detect` with `HARRIS` returns false and the caller's feature is the one it was
before the call. -/
theorem detect_not_found (detectIn : DetectIn) (self : RawImage) (img : Image)
    (featPtr : feature_ptr_t) (roiPtr : Option ROI)
    (hnone : (detectIn self.quickHarrisDetector img { measurement := none } roiPtr).found
      = false) :
    (RawImage.detect detectIn (self.setJafarImage (some img)) .HARRIS featPtr roiPtr).outcome
        = .returned false
      ∧ (RawImage.detect detectIn (self.setJafarImage (some img)) .HARRIS featPtr roiPtr).featPtr
        = featPtr := by
  simp [RawImage.detect, RawImage.setJafarImage, hnone]

/-- Witness of C5: a detector that finds nothing, a blank image, and a caller
whose feature was a 3 x 3 image point before the call. -/
theorem detect_not_found_witness :
    (noCorner RawImage.new.quickHarrisDetector blankImage { measurement := none } none).found
        = false
      ∧ (RawImage.detect noCorner (RawImage.new.setJafarImage (some blankImage)) .HARRIS
          (some (.featureImagePoint { width := 3, height := 3, depth := CV_8U })) none).outcome
        = .returned false
      ∧ (RawImage.detect noCorner (RawImage.new.setJafarImage (some blankImage)) .HARRIS
          (some (.featureImagePoint { width := 3, height := 3, depth := CV_8U })) none).featPtr
        = some (.featureImagePoint { width := 3, height := 3, depth := CV_8U }) :=
  ⟨rfl, detect_not_found noCorner RawImage.new blankImage
    (some (.featureImagePoint { width := 3, height := 3, depth := CV_8U })) none rfl⟩

/-- C6: with `HARRIS`, `detect` is `detectIn` run once on the stored image, on a
fresh feature point and with the region argument as given (absent stays
absent): it returns true exactly when `detectIn` succeeds, the caller's feature
becomes the feature point `detectIn` wrote on success and is left alone
otherwise; in the words of the contract, it returns the feature of `detectSpec`
or `NotFound`. -/
theorem detect_harris_refines (detectIn : DetectIn) (self : RawImage) (img : Image)
    (featPtr : feature_ptr_t) (roiPtr : Option ROI) :
    RawImage.detect detectIn (self.setJafarImage (some img)) .HARRIS featPtr roiPtr
        = { outcome := .returned
              (detectIn self.quickHarrisDetector img { measurement := none } roiPtr).found,
            featPtr :=
              if (detectIn self.quickHarrisDetector img { measurement := none } roiPtr).found
              then some (.featurePoint
                (detectIn self.quickHarrisDetector img { measurement := none } roiPtr).feat)
              else featPtr,
            self :=
              { img := some img,
                quickHarrisDetector :=
                  (detectIn self.quickHarrisDetector img { measurement := none } roiPtr).det } }
      ∧ (∀ fp, RawImage.detectSpec detectIn self img roiPtr = some fp ↔
          ((RawImage.detect detectIn (self.setJafarImage (some img)) .HARRIS featPtr
              roiPtr).outcome = .returned true
            ∧ (RawImage.detect detectIn (self.setJafarImage (some img)) .HARRIS featPtr
              roiPtr).featPtr = some (.featurePoint fp)))
      ∧ (RawImage.detectSpec detectIn self img roiPtr = none ↔
          (RawImage.detect detectIn (self.setJafarImage (some img)) .HARRIS featPtr
              roiPtr).outcome = .returned false) := by
  cases hf : (detectIn self.quickHarrisDetector img { measurement := none } roiPtr).found <;>
    simp [RawImage.detect, RawImage.setJafarImage, RawImage.detectSpec, hf]

/-! ## Proximity rejection through the region passed to `detect` -/

/-- The strongest pixel of a list is missing only for the empty list. -/
theorem strongest_eq_none (score : Int × Int → Double) (ps : List (Int × Int)) :
    strongest score ps = none ↔ ps = [] := by
  cases ps with
  | nil => simp [strongest]
  | cons p ps =>
    simp only [strongest]
    cases strongest score ps with
    | none => simp
    | some q => by_cases h : score p < score q <;> simp [h]

/-- The strongest pixel of a list is one of its pixels. -/
theorem strongest_mem (score : Int × Int → Double) (ps : List (Int × Int)) (c : Int × Int)
    (h : strongest score ps = some c) : c ∈ ps := by
  induction ps generalizing c with
  | nil => simp [strongest] at h
  | cons p ps ih =>
    simp only [strongest] at h
    cases hq : strongest score ps with
    | none =>
      rw [hq] at h
      simp only [Option.some.injEq] at h
      simp [h]
    | some q =>
      rw [hq] at h
      by_cases hlt : score p < score q
      · simp only [hlt, if_true, Option.some.injEq] at h
        subst h
        exact List.mem_cons_of_mem _ (ih q hq)
      · simp only [hlt, if_false, Option.some.injEq] at h
        simp [h]

/-- No pixel of a list scores above its strongest pixel. -/
theorem strongest_le (score : Int × Int → Double) (ps : List (Int × Int)) (c : Int × Int)
    (h : strongest score ps = some c) : ∀ q ∈ ps, score q ≤ score c := by
  induction ps generalizing c with
  | nil => simp
  | cons p ps ih =>
    simp only [strongest] at h
    intro q hqmem
    cases hq : strongest score ps with
    | none =>
      rw [hq] at h
      simp only [Option.some.injEq] at h
      have hnil : ps = [] := (strongest_eq_none score ps).1 hq
      subst hnil
      subst h
      simp only [List.mem_singleton] at hqmem
      rw [hqmem]
    | some b =>
      rw [hq] at h
      have hb := ih b hq
      by_cases hlt : score p < score b
      · simp only [hlt, if_true, Option.some.injEq] at h
        subst h
        rcases List.mem_cons.1 hqmem with rfl | hm
        · exact le_of_lt hlt
        · exact hb q hm
      · simp only [hlt, if_false, Option.some.injEq] at h
        subst h
        rcases List.mem_cons.1 hqmem with rfl | hm
        · exact le_refl _
        · exact le_trans (hb q hm) (not_lt.1 hlt)

/-- A region of one pixel inside the image is searched as that pixel alone. -/
theorem searchRegion_single (img : Image) (c : Int × Int) (hc : inImage img c = true) :
    searchRegion img (some { x := c.1, y := c.2, width := 1, height := 1 }) = [c] := by
  have h1 : List.range (1 : Int).toNat = [0] := rfl
  have hpix : rectPixels c.1 c.2 1 1 = [c] := by
    simp only [rectPixels, h1, List.flatMap, List.map, List.flatten, List.append_nil]
    simp
  simp [searchRegion, hpix, hc]

/-- A `HARRIS` detection with the detector of the contract, on an object holding
`img`: false and the feature left alone when no pixel of the region is above
the threshold, true and the strongest such pixel otherwise. -/
theorem detect_harrisSpec (score : Image → Int × Int → Double) (threshold : Double)
    (self : RawImage) (img : Image) (featPtr : feature_ptr_t) (roiPtr : Option ROI) :
    RawImage.detect (harrisSpec score threshold) (self.setJafarImage (some img)) .HARRIS
        featPtr roiPtr
      = match strongest (score img)
          ((searchRegion img roiPtr).filter fun p => decide (threshold < score img p)) with
        | none =>
          { outcome := .returned false, featPtr := featPtr,
            self := self.setJafarImage (some img) }
        | some c =>
          { outcome := .returned true,
            featPtr := some (.featurePoint { measurement := some (pixel c) }),
            self := self.setJafarImage (some img) } := by
  cases h : strongest (score img)
      ((searchRegion img roiPtr).filter fun p => decide (threshold < score img p)) <;>
    simp [RawImage.detect, RawImage.setJafarImage, harrisSpec, h]

/-- The pixels searched in the one-row region of the 200 x 200 image. -/
theorem searchRegion_shrunkROI :
    searchRegion frame200 (some shrunkROI)
      = [(120, 100), (121, 100), (122, 100), (123, 100), (124, 100), (125, 100), (126, 100),
         (127, 100), (128, 100), (129, 100), (130, 100)] := by
  decide

end rtslam
end jafar
